import Mathlib

/-!
Shallow embedding of `src/main.py` ("Pashu Mitra AI Backend"), a FastAPI
inference gateway with three prediction endpoints (`/api/classify`,
`/api/snake`, `/api/emotion`), a swallow-all audit logger, and a `/test`
health endpoint.

Modelling conventions:
* Confidences are the exact rationals denoted by the decimal literals in
  the source; a literal `0.92` is written `mkRat 92 100` (the same
  rational) so that it evaluates inside the kernel.
* Python's substring test `k in name` is `py_in k name`; `str.lower()` is
  `py_lower` (ASCII case folding, which covers every keyword the source
  matches on).
* Each endpoint takes the store-write function `create_document`
  (imported from the repository's `database` module, not present under
  `src/`) as an explicit parameter quantified over all behaviours; the
  `try/except Exception: pass` block of the source is modelled by
  returning the write outcome as a second component that the response
  (first component) is built independently of.
* The `database` module's `db` handle used by `/test` is likewise an
  explicit parameter (`DbModule`) covering the states the source
  distinguishes: import failure, other import-time exception, `db is
  None`, and a live handle whose `list_collection_names()` either
  returns a list or raises.
-/

namespace PashuMitra

/-- Python `needle in hay` on lists of characters: `startsWithList n h`
is true iff `n` is a prefix of `h`. -/
def startsWithList : List Char → List Char → Bool
  | [], _ => true
  | _ :: _, [] => false
  | a :: as, b :: bs => a == b && startsWithList as bs

/-- Substring containment on character lists (recursing over the haystack). -/
def substrIn (needle : List Char) : List Char → Bool
  | [] => needle.isEmpty
  | c :: tl => startsWithList needle (c :: tl) || substrIn needle tl

/-- Python's `needle in hay` for strings. -/
def py_in (needle hay : String) : Bool := substrIn needle.data hay.data

/-- Python's `s.lower()` (ASCII case folding). -/
def py_lower (s : String) : String := ⟨s.data.map Char.toLower⟩

/-- An uploaded multipart file: name, declared content type, and raw bytes. -/
structure UploadedFile where
  filename : String
  content_type : String
  content : List Nat
deriving DecidableEq

/-- `fastapi.HTTPException(status_code=..., detail=...)`. -/
structure HTTPException where
  status_code : Nat
  detail : String
deriving DecidableEq

/-- A JSON-ish value stored in the `meta` dict of a response. -/
inductive Val where
  | str : String → Val
  | nat : Nat → Val
deriving DecidableEq

/-- One `{"label": ..., "confidence": ...}` dict of a predictions list. -/
structure Prediction where
  label : String
  confidence : ℚ
deriving DecidableEq

instance : Inhabited Prediction := ⟨⟨"", 0⟩⟩

/-- The response payload `{"module": ..., "predictions": ..., "meta": ...}`;
`meta` is kept as the ordered key/value list the source builds. -/
structure Payload where
  module : String
  predictions : List Prediction
  meta : List (String × Val)
deriving DecidableEq

/-- `schemas.AnalysisLog` as constructed by the endpoints. -/
structure AnalysisLog where
  module : String
  filenames : List String
  content_types : List String
  sizes : List Nat
  result : Payload

/-- Lookup of a key in a `meta` association list. -/
def metaGet (m : List (String × Val)) (k : String) : Option Val :=
  (m.find? (fun kv => kv.1 == k)).map (fun kv => kv.2)

/-- `_mock_classifier_labels` from `src/main.py` lines 79-103. -/
def _mock_classifier_labels (filename : String) : List Prediction :=
  let name := py_lower filename
  if ["cow", "cattle", "bovine"].any (fun k => py_in k name) then
    [⟨"Cow", mkRat 92 100⟩, ⟨"Buffalo", mkRat 5 100⟩, ⟨"Yak", mkRat 3 100⟩]
  else if ["dog", "canine"].any (fun k => py_in k name) then
    [⟨"Dog", mkRat 90 100⟩, ⟨"Wolf", mkRat 6 100⟩, ⟨"Fox", mkRat 4 100⟩]
  else if ["cat", "feline"].any (fun k => py_in k name) then
    [⟨"Cat", mkRat 91 100⟩, ⟨"Lynx", mkRat 5 100⟩, ⟨"Puma", mkRat 4 100⟩]
  else
    [⟨"Unknown Animal", mkRat 60 100⟩, ⟨"Dog", mkRat 22 100⟩, ⟨"Cat", mkRat 18 100⟩]

/-- `_mock_snake_assessment` from `src/main.py` lines 106-119. -/
def _mock_snake_assessment (filename : String) : List Prediction :=
  let name := py_lower filename
  let venom := ["cobra", "viper", "krait"].any (fun k => py_in k name)
  let label := if venom then "Venomous Snake" else "Non-venomous Snake"
  [⟨label, if venom then mkRat 88 100 else mkRat 82 100⟩,
   ⟨"Rat Snake", mkRat 8 100⟩,
   ⟨"Other", mkRat 4 100⟩]

/-- `_mock_emotion` from `src/main.py` lines 122-140. -/
def _mock_emotion (filename : String) : List Prediction :=
  let name := py_lower filename
  if ["happy", "smile"].any (fun k => py_in k name) then
    [⟨"Happy", mkRat 93 100⟩, ⟨"Relaxed", mkRat 5 100⟩, ⟨"Alert", mkRat 2 100⟩]
  else if ["angry", "growl", "hiss"].any (fun k => py_in k name) then
    [⟨"Agitated", mkRat 88 100⟩, ⟨"Alert", mkRat 8 100⟩, ⟨"Neutral", mkRat 4 100⟩]
  else
    [⟨"Neutral", mkRat 70 100⟩, ⟨"Curious", mkRat 20 100⟩, ⟨"Relaxed", mkRat 10 100⟩]

/-- Type of the `create_document` collaborator from the `database` module:
collection name and entry in, success or a raised exception out. -/
def Store := String → AnalysisLog → Except String Unit

/-- A store whose write always succeeds. -/
def storeOk : Store := fun _ _ => Except.ok ()

/-- An endpoint's observable behaviour: the HTTP response (payload or
`HTTPException`) and, when a log write was attempted, its outcome. -/
def EndpointResult := Except HTTPException Payload × Option (Except String Unit)

/-- `classify` endpoint, `src/main.py` lines 144-172. -/
def classify (create_document : Store) (files : List UploadedFile) :
    EndpointResult :=
  match files with
  | [] => (Except.error ⟨400, "No files uploaded"⟩, none)
  | first :: rest =>
    let predictions := _mock_classifier_labels first.filename
    let meta : List (String × Val) :=
      [("filename", Val.str first.filename),
       ("content_type", Val.str first.content_type),
       ("files_count", Val.nat (first :: rest).length)]
    let payload : Payload := ⟨"classifier", predictions, meta⟩
    let log : AnalysisLog :=
      ⟨"classifier",
       (first :: rest).map (fun f => f.filename),
       (first :: rest).map (fun f => f.content_type),
       (first :: rest).map (fun f => f.content.length),
       payload⟩
    let outcome := create_document "analysislog" log
    (Except.ok payload, some outcome)

/-- `snake` endpoint, `src/main.py` lines 175-204. -/
def snake (create_document : Store) (files : List UploadedFile) :
    EndpointResult :=
  match files with
  | [] => (Except.error ⟨400, "No files uploaded"⟩, none)
  | first :: rest =>
    let predictions := _mock_snake_assessment first.filename
    let venomous := predictions.headI.label == "Venomous Snake"
    let meta : List (String × Val) :=
      [("filename", Val.str first.filename),
       ("content_type", Val.str first.content_type),
       ("danger", Val.str (if venomous then "Dangerous" else "Generally Safe")),
       ("files_count", Val.nat (first :: rest).length)]
    let payload : Payload := ⟨"snake", predictions, meta⟩
    let log : AnalysisLog :=
      ⟨"snake",
       (first :: rest).map (fun f => f.filename),
       (first :: rest).map (fun f => f.content_type),
       (first :: rest).map (fun f => f.content.length),
       payload⟩
    let outcome := create_document "analysislog" log
    (Except.ok payload, some outcome)

/-- `emotion` endpoint, `src/main.py` lines 207-234. -/
def emotion (create_document : Store) (files : List UploadedFile) :
    EndpointResult :=
  match files with
  | [] => (Except.error ⟨400, "No files uploaded"⟩, none)
  | first :: rest =>
    let predictions := _mock_emotion first.filename
    let meta : List (String × Val) :=
      [("filename", Val.str first.filename),
       ("content_type", Val.str first.content_type),
       ("files_count", Val.nat (first :: rest).length)]
    let payload : Payload := ⟨"emotion", predictions, meta⟩
    let log : AnalysisLog :=
      ⟨"emotion",
       (first :: rest).map (fun f => f.filename),
       (first :: rest).map (fun f => f.content_type),
       (first :: rest).map (fun f => f.content.length),
       payload⟩
    let outcome := create_document "analysislog" log
    (Except.ok payload, some outcome)

/-- Top (first) prediction of an endpoint response, when the response is
a success with at least one prediction. -/
def topPred (e : Except HTTPException Payload) : Option Prediction :=
  match e with
  | Except.ok p => p.predictions.head?
  | Except.error _ => none

/-- Meta dict of a successful response (empty on error). -/
def metaOf (e : Except HTTPException Payload) : List (String × Val) :=
  match e with
  | Except.ok p => p.meta
  | Except.error _ => []

/-- Confidences of a prediction list are weakly descending. -/
def sortedDesc : List Prediction → Bool
  | [] => true
  | [_] => true
  | a :: b :: tl => decide (b.confidence ≤ a.confidence) && sortedDesc (b :: tl)

/-- Sum of the confidences of a prediction list. -/
def confSum (l : List Prediction) : ℚ := (l.map (fun p => p.confidence)).sum

/-- The `db` handle exposed by the `database` module when the import
succeeds and the handle is not `None`: its optional `name` attribute and
the behaviour of `list_collection_names()` (a list, or a raised
exception's message). -/
structure DbHandle where
  name : Option String
  list_collection_names : Except String (List String)

/-- State of `from database import db` as distinguished by `test_database`:
the import raises `ImportError`, raises some other exception, or yields a
handle that is `None` or live. -/
inductive DbModule where
  | importError
  | otherError (msg : String)
  | importOk (db : Option DbHandle)

/-- The JSON object returned by `/test`; `database_url` / `database_name`
start out as Python `None` (here `Option.none`). -/
structure TestResponse where
  backend : String
  database : String
  database_url : Option String
  database_name : Option String
  connection_status : String
  collections : List String
deriving DecidableEq

/-- `test_database` (`GET /test`), `src/main.py` lines 33-75, with the
`database` module's state and the presence of the two environment
variables as explicit parameters. -/
def test_database (dbm : DbModule) (env_database_url env_database_name : Bool) :
    TestResponse :=
  let response : TestResponse :=
    ⟨"✅ Running", "❌ Not Available", none, none, "Not Connected", []⟩
  let response :=
    match dbm with
    | DbModule.importError =>
        { response with
          database := "❌ Database module not found (run enable-database first)" }
    | DbModule.otherError e =>
        { response with database := "❌ Error: " ++ e.take 50 }
    | DbModule.importOk none =>
        { response with database := "⚠️  Available but not initialized" }
    | DbModule.importOk (some db) =>
        let response :=
          { response with
            database := "✅ Available",
            database_url := some "✅ Configured",
            database_name := some (db.name.getD "✅ Connected"),
            connection_status := "Connected" }
        match db.list_collection_names with
        | Except.ok collections =>
            { response with
              collections := collections.take 10,
              database := "✅ Connected & Working" }
        | Except.error e =>
            { response with database := "⚠️  Connected but Error: " ++ e.take 50 }
  { response with
    database_url := some (if env_database_url then "✅ Set" else "❌ Not Set"),
    database_name := some (if env_database_name then "✅ Set" else "❌ Not Set") }

/-- Well-formedness of a predictions list: non-empty, every confidence
in [0, 1], and confidences weakly descending. -/
def wellFormed (l : List Prediction) : Prop :=
  l ≠ [] ∧ (∀ p ∈ l, 0 ≤ p.confidence ∧ p.confidence ≤ 1) ∧ sortedDesc l = true

/-- Claim C1: for every classify/snake/emotion request with a non-empty
file batch, the HTTP response (status and payload) is the same for an
arbitrary store-write behaviour (including failure) as for a store whose
write succeeds: the write outcome never influences the first component. -/
theorem audit_failure_isolated (create_document : Store)
    (first : UploadedFile) (rest : List UploadedFile) :
    (classify create_document (first :: rest)).1 =
      (classify storeOk (first :: rest)).1 ∧
    (snake create_document (first :: rest)).1 =
      (snake storeOk (first :: rest)).1 ∧
    (emotion create_document (first :: rest)).1 =
      (emotion storeOk (first :: rest)).1 :=
  ⟨rfl, rfl, rfl⟩

/-- Claim C2: for every request with an empty file batch, each of the
three endpoints fails with HTTP 400 and detail "No files uploaded", and
no payload is composed and no audit-log write is attempted (the outcome
component is `none`). -/
theorem empty_batch_rejected (create_document : Store) :
    classify create_document [] =
      (Except.error ⟨400, "No files uploaded"⟩, none) ∧
    snake create_document [] =
      (Except.error ⟨400, "No files uploaded"⟩, none) ∧
    emotion create_document [] =
      (Except.error ⟨400, "No files uploaded"⟩, none) :=
  ⟨rfl, rfl, rfl⟩

/-- Claim C5: whenever the first file's name contains "cow"
case-insensitively, `/api/classify` responds with top prediction
`{label: "Cow", confidence: mkRat 92 100}`. -/
theorem classify_cow_top (create_document : Store) (first : UploadedFile)
    (rest : List UploadedFile)
    (h : py_in "cow" (py_lower first.filename) = true) :
    topPred (classify create_document (first :: rest)).1 =
      some ⟨"Cow", mkRat 92 100⟩ := by
  simp [classify, topPred, _mock_classifier_labels, List.any_cons, h]

/-- Witness for C5 at the concrete upload "My_COW_photo.png". -/
theorem classify_cow_top_witness :
    py_in "cow" (py_lower "My_COW_photo.png") = true ∧
    topPred (classify storeOk [⟨"My_COW_photo.png", "image/png", [1, 2, 3]⟩]).1 =
      some ⟨"Cow", mkRat 92 100⟩ :=
  ⟨by decide,
   classify_cow_top storeOk ⟨"My_COW_photo.png", "image/png", [1, 2, 3]⟩ []
     (by decide)⟩

/-- Claim C7: whenever the first file's name matches no emotion keyword,
`/api/emotion` responds with top prediction
`{label: "Neutral", confidence: mkRat 70 100}`. -/
theorem emotion_default_top (create_document : Store) (first : UploadedFile)
    (rest : List UploadedFile)
    (h1 : (["happy", "smile"].any
      (fun k => py_in k (py_lower first.filename))) = false)
    (h2 : (["angry", "growl", "hiss"].any
      (fun k => py_in k (py_lower first.filename))) = false) :
    topPred (emotion create_document (first :: rest)).1 =
      some ⟨"Neutral", mkRat 70 100⟩ := by
  simp [emotion, topPred, _mock_emotion, h1, h2]

/-- Witness for C7 at the concrete upload "random.jpg". -/
theorem emotion_default_top_witness :
    (["happy", "smile"].any
      (fun k => py_in k (py_lower "random.jpg"))) = false ∧
    (["angry", "growl", "hiss"].any
      (fun k => py_in k (py_lower "random.jpg"))) = false ∧
    topPred (emotion storeOk [⟨"random.jpg", "image/jpeg", []⟩]).1 =
      some ⟨"Neutral", mkRat 70 100⟩ :=
  ⟨by decide, by decide,
   emotion_default_top storeOk ⟨"random.jpg", "image/jpeg", []⟩ []
     (by decide) (by decide)⟩

/-- Claim C8: every successful response's meta carries the first file's
name and content type and a files_count equal to the batch length, for
all three endpoints. -/
theorem meta_first_file_and_count (create_document : Store)
    (first : UploadedFile) (rest : List UploadedFile) :
    (metaGet (metaOf (classify create_document (first :: rest)).1) "filename" =
        some (Val.str first.filename) ∧
      metaGet (metaOf (classify create_document (first :: rest)).1) "content_type" =
        some (Val.str first.content_type) ∧
      metaGet (metaOf (classify create_document (first :: rest)).1) "files_count" =
        some (Val.nat (first :: rest).length)) ∧
    (metaGet (metaOf (snake create_document (first :: rest)).1) "filename" =
        some (Val.str first.filename) ∧
      metaGet (metaOf (snake create_document (first :: rest)).1) "content_type" =
        some (Val.str first.content_type) ∧
      metaGet (metaOf (snake create_document (first :: rest)).1) "files_count" =
        some (Val.nat (first :: rest).length)) ∧
    (metaGet (metaOf (emotion create_document (first :: rest)).1) "filename" =
        some (Val.str first.filename) ∧
      metaGet (metaOf (emotion create_document (first :: rest)).1) "content_type" =
        some (Val.str first.content_type) ∧
      metaGet (metaOf (emotion create_document (first :: rest)).1) "files_count" =
        some (Val.nat (first :: rest).length)) :=
  ⟨⟨rfl, rfl, rfl⟩, ⟨rfl, rfl, rfl⟩, ⟨rfl, rfl, rfl⟩⟩

/-- Claim C10: the response of each endpoint is a function of the first
file's name, the first file's content type, and the batch length only;
the store behaviour, the other files' names, and all byte contents are
irrelevant to the first (response) component. -/
theorem response_depends_only_on_first_meta
    (cd cd' : Store) (f f' : UploadedFile) (r r' : List UploadedFile)
    (hname : f.filename = f'.filename)
    (hct : f.content_type = f'.content_type)
    (hlen : r.length = r'.length) :
    (classify cd (f :: r)).1 = (classify cd' (f' :: r')).1 ∧
    (snake cd (f :: r)).1 = (snake cd' (f' :: r')).1 ∧
    (emotion cd (f :: r)).1 = (emotion cd' (f' :: r')).1 := by
  refine ⟨?_, ?_, ?_⟩ <;>
    simp [classify, snake, emotion, hname, hct, hlen]

/-- Witness for C10: two batches differing in byte contents, second
file, and store behaviour receive the same responses. -/
theorem response_depends_only_on_first_meta_witness :
    (⟨"a.jpg", "image/jpeg", [1, 2, 3]⟩ : UploadedFile).filename =
      (⟨"a.jpg", "image/jpeg", [9]⟩ : UploadedFile).filename ∧
    (classify storeOk
        [⟨"a.jpg", "image/jpeg", [1, 2, 3]⟩, ⟨"b.png", "image/png", []⟩]).1 =
      (classify (fun _ _ => Except.error "db down")
        [⟨"a.jpg", "image/jpeg", [9]⟩, ⟨"c.gif", "image/gif", [7, 7]⟩]).1 :=
  ⟨rfl,
   (response_depends_only_on_first_meta storeOk
      (fun _ _ => Except.error "db down")
      ⟨"a.jpg", "image/jpeg", [1, 2, 3]⟩ ⟨"a.jpg", "image/jpeg", [9]⟩
      [⟨"b.png", "image/png", []⟩] [⟨"c.gif", "image/gif", [7, 7]⟩]
      rfl rfl rfl).1⟩

/-- Claim C3: for every input filename, each of the three modules
returns a non-empty list of predictions whose confidences all lie in
[0, 1] and are ordered descending. -/
theorem predictions_well_formed (filename : String) :
    wellFormed (_mock_classifier_labels filename) ∧
    wellFormed (_mock_snake_assessment filename) ∧
    wellFormed (_mock_emotion filename) := by
  refine ⟨?_, ?_, ?_⟩
  · unfold _mock_classifier_labels wellFormed
    dsimp only
    split_ifs <;> exact ⟨by decide, by decide, by decide⟩
  · unfold wellFormed
    simp only [_mock_snake_assessment]
    cases h : ["cobra", "viper", "krait"].any
        (fun k => py_in k (py_lower filename)) <;>
      simp only [h, Bool.false_eq_true, ite_true, ite_false] <;>
      exact ⟨by decide, by decide, by decide⟩
  · unfold _mock_emotion wellFormed
    dsimp only
    split_ifs <;> exact ⟨by decide, by decide, by decide⟩

/-- Counterexample for C4: at filename "cow.jpg" the classifier module's
confidences sum to exactly 1, contradicting "approximately but not
exactly equal to 1.0". -/
theorem classifier_cow_sum_exactly_one :
    confSum (_mock_classifier_labels "cow.jpg") = 1 := by
  have h : _mock_classifier_labels "cow.jpg" =
      [⟨"Cow", mkRat 92 100⟩, ⟨"Buffalo", mkRat 5 100⟩, ⟨"Yak", mkRat 3 100⟩] := by
    decide
  rw [h]
  norm_num [confSum, Rat.mkRat_eq_div]

/-- Amended C4: every module returns exactly 3 predictions, and the sum
of their confidences is exactly 1 in every branch except the
non-venomous snake branch, where it is mkRat 94 100. -/
theorem three_predictions_sum_near_one (filename : String) :
    ((_mock_classifier_labels filename).length = 3 ∧
      confSum (_mock_classifier_labels filename) = 1) ∧
    ((_mock_snake_assessment filename).length = 3 ∧
      (confSum (_mock_snake_assessment filename) = 1 ∨
        confSum (_mock_snake_assessment filename) = mkRat 94 100)) ∧
    ((_mock_emotion filename).length = 3 ∧
      confSum (_mock_emotion filename) = 1) := by
  refine ⟨?_, ?_, ?_⟩
  · unfold _mock_classifier_labels
    dsimp only
    split_ifs <;>
      exact ⟨by decide, by norm_num [confSum, Rat.mkRat_eq_div]⟩
  · simp only [_mock_snake_assessment]
    cases h : ["cobra", "viper", "krait"].any
        (fun k => py_in k (py_lower filename))
    · simp only [h, Bool.false_eq_true, ite_true, ite_false]
      exact ⟨by decide, Or.inr (by norm_num [confSum, Rat.mkRat_eq_div])⟩
    · simp only [h, ite_true]
      exact ⟨by decide, Or.inl (by norm_num [confSum, Rat.mkRat_eq_div])⟩
  · unfold _mock_emotion
    dsimp only
    split_ifs <;>
      exact ⟨by decide, by norm_num [confSum, Rat.mkRat_eq_div]⟩

/-- Claim C6: for `/api/snake` the top label is "Venomous Snake" exactly
when the (case-insensitive) venom-keyword test on the first file's name
succeeds and "Non-venomous Snake" otherwise; `meta.danger` is then
"Dangerous" respectively "Generally Safe", and equals "Dangerous"
exactly when the top label is "Venomous Snake". -/
theorem snake_danger_matches_top (create_document : Store)
    (first : UploadedFile) (rest : List UploadedFile) :
    (topPred (snake create_document (first :: rest)).1).map Prediction.label =
      some (if ["cobra", "viper", "krait"].any
          (fun k => py_in k (py_lower first.filename))
        then "Venomous Snake" else "Non-venomous Snake") ∧
    metaGet (metaOf (snake create_document (first :: rest)).1) "danger" =
      some (Val.str (if ["cobra", "viper", "krait"].any
          (fun k => py_in k (py_lower first.filename))
        then "Dangerous" else "Generally Safe")) ∧
    (metaGet (metaOf (snake create_document (first :: rest)).1) "danger" =
        some (Val.str "Dangerous") ↔
      (topPred (snake create_document (first :: rest)).1).map Prediction.label =
        some "Venomous Snake") := by
  cases h : ["cobra", "viper", "krait"].any
      (fun k => py_in k (py_lower first.filename)) <;>
    simp [snake, _mock_snake_assessment, topPred, metaOf, metaGet, h]

/-- Claim C9: for every state of the database module (import failure,
import-time exception, uninitialized handle, live handle whose
collection listing returns or raises) and any environment-variable
configuration, `/test` returns a full response: fixed backend banner,
both env-presence fields set, a documented connection status, at most 10
collection names, and a database field that is one of the documented
descriptive values. -/
theorem test_endpoint_robust (dbm : DbModule) (u n : Bool) :
    (test_database dbm u n).backend = "✅ Running" ∧
    (test_database dbm u n).database_url =
      some (if u then "✅ Set" else "❌ Not Set") ∧
    (test_database dbm u n).database_name =
      some (if n then "✅ Set" else "❌ Not Set") ∧
    ((test_database dbm u n).connection_status = "Not Connected" ∨
      (test_database dbm u n).connection_status = "Connected") ∧
    (test_database dbm u n).collections.length ≤ 10 ∧
    ((test_database dbm u n).database =
        "❌ Database module not found (run enable-database first)" ∨
      (∃ e, (test_database dbm u n).database = "❌ Error: " ++ e) ∨
      (test_database dbm u n).database = "⚠️  Available but not initialized" ∨
      (test_database dbm u n).database = "✅ Connected & Working" ∨
      (∃ e, (test_database dbm u n).database =
        "⚠️  Connected but Error: " ++ e)) := by
  rcases dbm with _ | e | (_ | ⟨nm, ls⟩)
  · exact ⟨rfl, rfl, rfl, Or.inl rfl, Nat.zero_le 10, Or.inl rfl⟩
  · exact ⟨rfl, rfl, rfl, Or.inl rfl, Nat.zero_le 10,
      Or.inr (Or.inl ⟨e.take 50, rfl⟩)⟩
  · exact ⟨rfl, rfl, rfl, Or.inl rfl, Nat.zero_le 10,
      Or.inr (Or.inr (Or.inl rfl))⟩
  · rcases ls with e | cols
    · exact ⟨rfl, rfl, rfl, Or.inr rfl, Nat.zero_le 10,
        Or.inr (Or.inr (Or.inr (Or.inr ⟨e.take 50, rfl⟩)))⟩
    · refine ⟨rfl, rfl, rfl, Or.inr rfl, ?_, Or.inr (Or.inr (Or.inr (Or.inl rfl)))⟩
      show (cols.take 10).length ≤ 10
      exact List.length_take_le 10 cols

end PashuMitra
